import Mathlib

/-!
Verification development for the sherpa-rs binding layer
(crates/sherpa-rs/src/source_separation.rs and crates/sherpa-rs/src/tts/zipvoice.rs).

The two Rust files are thin wrappers over a native C library. We embed them
shallowly: the native functions on the other side of the FFI boundary are
parameters (or explicit result values) of the embedded Rust functions, raw
pointers that may be null become Option, reading a native buffer of a claimed
length from an actual array is modelled by an Option-valued read that is none
exactly when the real code would read out of bounds (undefined behaviour),
and Rust i32 arithmetic is modelled on Int with truncating division
(Int.tdiv, which like Rust rounds toward zero) and an explicit outcome for the
division-by-zero panic. f32 values are never computed on by the binding layer
(they are only copied), so they are modelled as opaque 32-bit patterns.
-/

/-- Opaque model of an f32 value. The binding layer never performs arithmetic
on sample values, it only copies them, so the payload is an uninterpreted bit
pattern. -/
structure F32 where
  bits : Nat
deriving DecidableEq, Repr

/-- Model of a process-owned null-terminated C string produced by
cstring_from_str: only its character content is observable to the native
callee. -/
structure CString where
  val : String
deriving DecidableEq, Repr

/-- Embedding of utils::cstring_from_str. -/
def cstring_from_str (s : String) : CString := ⟨s⟩

/-- Opaque non-null native source-separation handle address. -/
structure SSHandle where
  addr : Nat
deriving DecidableEq, Repr

/-! ## Source separation: Rust-side configuration types (source_separation.rs) -/

/-- Embedding of SpleeterModelConfig. -/
structure SpleeterModelConfig where
  vocals : String
  accompaniment : String
deriving DecidableEq, Repr

/-- Embedding of UvrModelConfig. -/
structure UvrModelConfig where
  model : String
deriving DecidableEq, Repr

/-- Embedding of SourceSeparationConfig. -/
structure SourceSeparationConfig where
  spleeter : Option SpleeterModelConfig
  uvr : Option UvrModelConfig
  num_threads : Int
  provider : Option String
  debug : Bool
deriving DecidableEq, Repr

/-! ## Source separation: native configuration structs (sherpa-rs-sys layout) -/

/-- Embedding of SherpaOnnxOfflineSourceSeparationSpleeterModelConfig. -/
structure SherpaOnnxOfflineSourceSeparationSpleeterModelConfig where
  vocals : CString
  accompaniment : CString
deriving DecidableEq, Repr

/-- Embedding of SherpaOnnxOfflineSourceSeparationUvrModelConfig. -/
structure SherpaOnnxOfflineSourceSeparationUvrModelConfig where
  model : CString
deriving DecidableEq, Repr

/-- Embedding of SherpaOnnxOfflineSourceSeparationModelConfig. -/
structure SherpaOnnxOfflineSourceSeparationModelConfig where
  spleeter : SherpaOnnxOfflineSourceSeparationSpleeterModelConfig
  uvr : SherpaOnnxOfflineSourceSeparationUvrModelConfig
  num_threads : Int
  debug : Int
  provider : CString
deriving DecidableEq, Repr

/-- Embedding of SherpaOnnxOfflineSourceSeparationConfig. -/
structure SherpaOnnxOfflineSourceSeparationConfig where
  model : SherpaOnnxOfflineSourceSeparationModelConfig
deriving DecidableEq, Repr

/-- Embedding of the handle-owning struct SourceSeparation. Its pointer field
ss is stored only after the null check in new, so it is modelled as a
non-optional handle. -/
structure SourceSeparation where
  ss : SSHandle
deriving DecidableEq, Repr

/-- The configuration marshalling performed by SourceSeparation::new
(source_separation.rs lines 64-101), up to but not including the native
creation call. get_default_provider lives outside src/, so the default
provider string it would return is a parameter. -/
def SourceSeparation.marshalConfig (config : SourceSeparationConfig)
    (default_provider : String) : SherpaOnnxOfflineSourceSeparationConfig :=
  let provider := config.provider.getD default_provider
  let debug : Int := if config.debug then 1 else 0
  let num_threads := if config.num_threads > 0 then config.num_threads else 1
  let spleeterPair :=
    match config.spleeter with
    | some s => (cstring_from_str s.vocals, cstring_from_str s.accompaniment)
    | none => (cstring_from_str "", cstring_from_str "")
  let uvr_model :=
    match config.uvr with
    | some u => cstring_from_str u.model
    | none => cstring_from_str ""
  let provider_cstr := cstring_from_str provider
  { model :=
    { spleeter := { vocals := spleeterPair.1, accompaniment := spleeterPair.2 }
      uvr := { model := uvr_model }
      num_threads := num_threads
      debug := debug
      provider := provider_cstr } }

/-- Embedding of SourceSeparation::new. The native creation function
SherpaOnnxCreateOfflineSourceSeparation is a parameter returning none for a
null handle; the Rust function bails with an eyre error exactly in that
case. -/
def SourceSeparation.new (config : SourceSeparationConfig)
    (default_provider : String)
    (createOfflineSourceSeparation :
      SherpaOnnxOfflineSourceSeparationConfig → Option SSHandle) :
    Except String SourceSeparation :=
  let c_config := SourceSeparation.marshalConfig config default_provider
  match createOfflineSourceSeparation c_config with
  | none => Except.error "Failed to create source separation instance"
  | some h => Except.ok { ss := h }

/-! ## Source separation: native process result and the process method -/

/-- One native stem descriptor in the result array
(SherpaOnnxOfflineSourceSeparationOutputStem): the field nStem embeds the
i32 field n, and samples is the readable array behind the samples pointer
(none for a null pointer). -/
structure NativeStem where
  samples : Option (List F32)
  nStem : Int
  sample_rate : Int
  num_channels : Int
deriving DecidableEq, Repr

/-- The native result struct SherpaOnnxOfflineSourceSeparationResult:
num_stems is the reported i32 count, stems the actual readable descriptor
array behind the stems pointer. -/
structure NativeSeparationResult where
  num_stems : Int
  stems : List NativeStem
deriving DecidableEq, Repr

/-- Embedding of SeparatedStem. -/
structure SeparatedStem where
  samples : List F32
  sample_rate : Int
  num_channels : Int
deriving DecidableEq, Repr

/-- Embedding of SourceSeparationResult. -/
structure SourceSeparationResult where
  stems : List SeparatedStem
deriving DecidableEq, Repr

/-- Semantics of Rust `x as usize` applied to an i32 value: it wraps to the
64-bit unsigned representative, so a negative count becomes astronomically
large. -/
def usizeOfI32 (x : Int) : Nat := (x % 18446744073709551616).toNat

/-- Outcome of a call to SourceSeparation::process. The undefinedRead case
marks inputs on which the Rust code commits undefined behaviour by reading
outside a native array (offsetting past the stems array, or
slice::from_raw_parts on a null/short sample buffer). -/
inductive ProcessOutcome where
  | ok (r : SourceSeparationResult)
  | error (msg : String)
  | undefinedRead
deriving DecidableEq, Repr

/-- Reading one stem descriptor, embedding source_separation.rs lines 148-156:
let n = stem.n as usize; slice::from_raw_parts(stem.samples, n) followed by a
copy. none exactly when from_raw_parts is undefined: null pointer, or fewer
than n readable elements. -/
def readStem (stem : NativeStem) : Option SeparatedStem :=
  let n := usizeOfI32 stem.nStem
  match stem.samples with
  | none => none
  | some buf =>
    if buf.length < n then none
    else some { samples := buf.take n
                sample_rate := stem.sample_rate
                num_channels := stem.num_channels }

/-- Reading a prefix of the stems array elementwise; none if any element read
is undefined. -/
def readAll : List NativeStem → Option (List SeparatedStem)
  | [] => some []
  | s :: rest =>
    match readStem s, readAll rest with
    | some st, some sts => some (st :: sts)
    | _, _ => none

/-- Embedding of the loop of source_separation.rs lines 147-157: indices
0..count of the stems array are dereferenced; touching an index at or past
the end of the actual array is undefined (none). -/
def readStems (arr : List NativeStem) (count : Nat) : Option (List SeparatedStem) :=
  if count ≤ arr.length then readAll (arr.take count) else none

/-- Embedding of SourceSeparation::process (source_separation.rs lines
121-163), as a function of the native result returned by
SherpaOnnxOfflineSourceSeparationProcess for this call (none for a null
result pointer). The Rust loop `for i in 0..num_stems` with i32 bounds is
empty when num_stems is non-positive, which Int.toNat reproduces. -/
def SourceSeparation.process (nativeResult : Option NativeSeparationResult) :
    ProcessOutcome :=
  match nativeResult with
  | none => ProcessOutcome.error "Source separation processing failed"
  | some result =>
    match readStems result.stems result.num_stems.toNat with
    | none => ProcessOutcome.undefinedRead
    | some stems => ProcessOutcome.ok { stems := stems }

/-! ## ZipVoice TTS (tts/zipvoice.rs) -/

/-- Opaque non-null native offline-TTS handle address. -/
structure TtsHandle where
  addr : Nat
deriving DecidableEq, Repr

/-- Embedding of OnnxConfig (declared outside src/, in the crate root; the
fields used here are provider, num_threads and debug). -/
structure OnnxConfig where
  provider : String
  num_threads : Int
  debug : Bool
deriving DecidableEq, Repr

/-- Modelled from the spec: CommonTtsConfig and its to_raw marshalling live
outside src/ (tts/mod.rs). Per the spec the shared TTS settings are a max
sentence count, pronunciation rule files and a silence scale; to_raw turns
the rule-file fields into nullable C strings. -/
structure CommonTtsConfig where
  max_num_sentences : Int
  silence_scale : F32
  rule_fsts : Option String
  rule_fars : Option String
deriving DecidableEq, Repr

/-- Embedding of ZipVoiceTtsConfig. -/
structure ZipVoiceTtsConfig where
  tokens : String
  encoder : String
  decoder : String
  vocoder : String
  data_dir : String
  lexicon : String
  feat_scale : F32
  t_shift : F32
  target_rms : F32
  guidance_scale : F32
  onnx_config : OnnxConfig
  common_config : CommonTtsConfig
deriving DecidableEq, Repr

/-- Embedding of SherpaOnnxOfflineTtsZipvoiceModelConfig. -/
structure SherpaOnnxOfflineTtsZipvoiceModelConfig where
  tokens : CString
  encoder : CString
  decoder : CString
  vocoder : CString
  data_dir : CString
  lexicon : CString
  feat_scale : F32
  t_shift : F32
  target_rms : F32
  guidance_scale : F32
deriving DecidableEq, Repr

/-- A mem::zeroed model-family slot of the shared native TTS model config
(vits, matcha, kokoro, kitten): zero-initialized and unused. -/
inductive ZeroedSlot where
  | zeroed
deriving DecidableEq, Repr

/-- Embedding of SherpaOnnxOfflineTtsModelConfig. -/
structure SherpaOnnxOfflineTtsModelConfig where
  vits : ZeroedSlot
  num_threads : Int
  debug : Int
  provider : CString
  matcha : ZeroedSlot
  kokoro : ZeroedSlot
  kitten : ZeroedSlot
  zipvoice : SherpaOnnxOfflineTtsZipvoiceModelConfig
deriving DecidableEq, Repr

/-- Embedding of SherpaOnnxOfflineTtsConfig; the rule_fars/rule_fsts pointers
are nullable (none = null). -/
structure SherpaOnnxOfflineTtsConfig where
  max_num_sentences : Int
  model : SherpaOnnxOfflineTtsModelConfig
  rule_fars : Option CString
  rule_fsts : Option CString
  silence_scale : F32
deriving DecidableEq, Repr

/-- Embedding of the handle-owning struct ZipVoiceTts. Its tts pointer is
stored without any null check in new, so it is modelled as optional: none
models a null native handle held by the object. -/
structure ZipVoiceTts where
  tts : Option TtsHandle
deriving DecidableEq, Repr

/-- The configuration marshalling performed by ZipVoiceTts::new
(zipvoice.rs lines 31-70), up to but not including the native creation
call. Rust's bool-to-int conversion for debug is made explicit. -/
def ZipVoiceTts.marshal (config : ZipVoiceTtsConfig) :
    SherpaOnnxOfflineTtsConfig :=
  let tokens := cstring_from_str config.tokens
  let encoder := cstring_from_str config.encoder
  let decoder := cstring_from_str config.decoder
  let vocoder := cstring_from_str config.vocoder
  let data_dir := cstring_from_str config.data_dir
  let lexicon := cstring_from_str config.lexicon
  let provider := cstring_from_str config.onnx_config.provider
  let model_config : SherpaOnnxOfflineTtsModelConfig :=
    { vits := ZeroedSlot.zeroed
      num_threads := config.onnx_config.num_threads
      debug := if config.onnx_config.debug then 1 else 0
      provider := provider
      matcha := ZeroedSlot.zeroed
      kokoro := ZeroedSlot.zeroed
      kitten := ZeroedSlot.zeroed
      zipvoice :=
      { tokens := tokens
        encoder := encoder
        decoder := decoder
        vocoder := vocoder
        data_dir := data_dir
        lexicon := lexicon
        feat_scale := config.feat_scale
        t_shift := config.t_shift
        target_rms := config.target_rms
        guidance_scale := config.guidance_scale } }
  { max_num_sentences := config.common_config.max_num_sentences
    model := model_config
    rule_fars := config.common_config.rule_fars.map cstring_from_str
    rule_fsts := config.common_config.rule_fsts.map cstring_from_str
    silence_scale := config.common_config.silence_scale }

/-- Embedding of ZipVoiceTts::new (zipvoice.rs lines 30-75). The native
creation function is a parameter returning none for a null handle. Note the
returned pointer is stored unconditionally: there is no null check and the
function cannot fail. -/
def ZipVoiceTts.new (config : ZipVoiceTtsConfig)
    (createOfflineTts : SherpaOnnxOfflineTtsConfig → Option TtsHandle) :
    ZipVoiceTts :=
  { tts := createOfflineTts (ZipVoiceTts.marshal config) }

/-- Embedding of TtsAudio (tts/mod.rs, declared outside src/; its fields are
exactly the ones populated by zipvoice.rs lines 120-124): samples, a u32
sample rate and an i32 duration. -/
structure TtsAudio where
  samples : List F32
  sample_rate : Nat
  duration : Int
deriving DecidableEq, Repr

/-- The native struct SherpaOnnxGeneratedAudio as read through audio_ptr:
samples is the readable array behind the samples pointer (none for a null
pointer), n the reported i32 sample count, sample_rate the reported i32
rate. -/
structure GeneratedAudio where
  samples : Option (List F32)
  n : Int
  sample_rate : Int
deriving DecidableEq, Repr

/-- Semantics of Rust `x as u32` applied to an i32 value: wrap modulo 2^32. -/
def i32ToU32 (x : Int) : Nat := (x % 4294967296).toNat

/-- Outcome of a call to ZipVoiceTts::create. divByZero marks the Rust panic
raised by i32 division when the reported sample rate is zero; undefinedRead
marks slice::from_raw_parts reading past the actual sample buffer. -/
inductive CreateOutcome where
  | ok (a : TtsAudio)
  | error (msg : String)
  | divByZero
  | undefinedRead
deriving DecidableEq, Repr

/-- Embedding of ZipVoiceTts::create (zipvoice.rs lines 77-126),
instrumented: the second component counts the calls made to
SherpaOnnxDestroyOfflineTtsGeneratedAudio on the taken path. The native
generation call is modelled by its result value (none for a null
audio_ptr); the text, prompt and sampling arguments only flow into that
call, so they are not repeated here. Int.tdiv is Rust i32 division
(truncation toward zero), with the zero divisor case split off as the panic
it is in Rust. -/
def ZipVoiceTts.createRun (res : Option GeneratedAudio) :
    CreateOutcome × Nat :=
  match res with
  | none => (CreateOutcome.error "audio is null", 0)
  | some aud =>
    if aud.n < 0 then (CreateOutcome.error "no samples found", 0)
    else
      match aud.samples with
      | none => (CreateOutcome.error "audio samples are null", 0)
      | some buf =>
        if buf.length < aud.n.toNat then (CreateOutcome.undefinedRead, 0)
        else
          let samples := buf.take aud.n.toNat
          let sample_rate := aud.sample_rate
          if sample_rate = 0 then (CreateOutcome.divByZero, 0)
          else
            let duration := Int.tdiv (samples.length : Int) sample_rate
            (CreateOutcome.ok
              { samples := samples
                sample_rate := i32ToU32 sample_rate
                duration := duration }, 1)

/-- The observable outcome of ZipVoiceTts::create, without the destroy-call
count. -/
def ZipVoiceTts.create (res : Option GeneratedAudio) : CreateOutcome :=
  (ZipVoiceTts.createRun res).1

/-- True exactly when the create outcome is the eyre error the spec calls
GenerationFailed. -/
def CreateOutcome.isFailure : CreateOutcome → Bool
  | CreateOutcome.error _ => true
  | _ => false

/-! ## Spec model of the native separation accessors

The native functions SherpaOnnxOfflineSourceSeparationGetSampleRate and
GetNumStems are implemented outside this repository; only their declarations
and callers exist here. -/

/-- Modelled from the spec: the native library state behind a successfully
constructed separation handle. Missing from src/: the native implementations
of the accessor functions and of process. Per the spec, sample rate and stem
count are static properties of the loaded model family, the stem count is a
positive integer, and every successful process result carries exactly
stem-count stems. -/
structure NativeSeparationModel where
  num_stems : Int
  sample_rate : Int
  num_stems_pos : 0 < num_stems

/-- Modelled from the spec: the native accessor GetNumStems is a pure
function of the handle state. -/
def SherpaOnnxOfflineSourceSeparationGetNumStems
    (m : NativeSeparationModel) : Int := m.num_stems

/-- Embedding of SourceSeparation::get_num_stems (source_separation.rs lines
117-119): it forwards to the native accessor on the handle. -/
def SourceSeparation.get_num_stems (m : NativeSeparationModel) : Int :=
  SherpaOnnxOfflineSourceSeparationGetNumStems m

/-- Modelled from the spec: a native result that a successful process call on
a handle with state m may return — its reported count equals the model's
stem count, the descriptor array really has that many entries, and every
descriptor is readable. -/
def NativeResultMatchesModel (m : NativeSeparationModel)
    (r : NativeSeparationResult) : Prop :=
  r.num_stems = m.num_stems ∧
  r.stems.length = r.num_stems.toNat ∧
  r.stems.all (fun s => (readStem s).isSome) = true

/-! ## Helper lemmas -/

/-- readAll succeeds on a list whose every element is readable. -/
theorem readAll_isSome_of_forall (l : List NativeStem)
    (h : ∀ s ∈ l, (readStem s).isSome = true) :
    ∃ out, readAll l = some out := by
  induction l with
  | nil => exact ⟨[], rfl⟩
  | cons s rest ih =>
    obtain ⟨out, hout⟩ := ih (fun t ht => h t (List.mem_cons_of_mem s ht))
    have hs := h s (List.mem_cons_self s rest)
    obtain ⟨st, hst⟩ := Option.isSome_iff_exists.mp hs
    exact ⟨st :: out, by simp [readAll, hst, hout]⟩

/-- readAll preserves length. -/
theorem readAll_length (l : List NativeStem) (out : List SeparatedStem)
    (h : readAll l = some out) : out.length = l.length := by
  induction l generalizing out with
  | nil => simp [readAll] at h; simp [← h]
  | cons s rest ih =>
    simp only [readAll] at h
    cases hs : readStem s with
    | none => rw [hs] at h; exact absurd h (by simp)
    | some st =>
      rw [hs] at h
      cases hr : readAll rest with
      | none => rw [hr] at h; exact absurd h (by simp)
      | some sts =>
        rw [hr] at h
        simp only [Option.some.injEq] at h
        subst h
        simp [ih sts hr]

/-! ## Claim theorems -/

/-- C8: for every source-separation configuration, construction passes the
configured thread count to the native creation call when it is positive and
1 when it is zero or negative, and passes the configured execution-provider
name when one is set and the platform default otherwise. The native config
built here is exactly the value new hands to the native creation
function. -/
theorem marshal_threads_and_provider (cfg : SourceSeparationConfig)
    (dp : String) :
    (SourceSeparation.marshalConfig cfg dp).model.num_threads =
      (if 0 < cfg.num_threads then cfg.num_threads else 1) ∧
    (SourceSeparation.marshalConfig cfg dp).model.provider.val =
      (match cfg.provider with
       | some p => p
       | none => dp) := by
  cases hp : cfg.provider <;>
    simp [SourceSeparation.marshalConfig, hp, cstring_from_str]

/-- C9: the native configuration assembled at construction embeds both
sub-model configurations; the selected family's paths are forwarded verbatim
and every string field of an unselected family is the empty
(null-terminated) string. -/
theorem marshal_embeds_both_families (cfg : SourceSeparationConfig)
    (dp : String) :
    (SourceSeparation.marshalConfig cfg dp).model.spleeter.vocals =
      cstring_from_str
        (match cfg.spleeter with
         | some s => s.vocals
         | none => "") ∧
    (SourceSeparation.marshalConfig cfg dp).model.spleeter.accompaniment =
      cstring_from_str
        (match cfg.spleeter with
         | some s => s.accompaniment
         | none => "") ∧
    (SourceSeparation.marshalConfig cfg dp).model.uvr.model =
      cstring_from_str
        (match cfg.uvr with
         | some u => u.model
         | none => "") := by
  cases hs : cfg.spleeter <;> cases hu : cfg.uvr <;>
    simp [SourceSeparation.marshalConfig, hs, hu]

/-- C10: SourceSeparation construction performs no validation of the model
family selection: for every configuration (both families set, neither set,
or exactly one), new succeeds with the handle the native creation returns
on the marshalled configuration, and fails (with the creation-failure
error) exactly when the native creation returns null. -/
theorem new_forwards_every_config_and_fails_only_on_null
    (cfg : SourceSeparationConfig) (dp : String)
    (f : SherpaOnnxOfflineSourceSeparationConfig → Option SSHandle) :
    (∀ h : SSHandle,
      SourceSeparation.new cfg dp f = Except.ok { ss := h } ↔
        f (SourceSeparation.marshalConfig cfg dp) = some h) ∧
    (SourceSeparation.new cfg dp f =
        Except.error "Failed to create source separation instance" ↔
      f (SourceSeparation.marshalConfig cfg dp) = none) := by
  cases hf : f (SourceSeparation.marshalConfig cfg dp) <;>
    simp [SourceSeparation.new, hf]

/-- C5 counterexample: a native result reporting one stem over an empty
descriptor array. The claim says process returns an empty result instead of
reading out of bounds; the code trusts the count and dereferences index 0 of
the empty array, which is an out-of-bounds read. -/
theorem process_reads_past_array_on_overcount :
    SourceSeparation.process (some { num_stems := 1, stems := [] }) =
      ProcessOutcome.undefinedRead := by
  decide

/-- C5 amended: process iterates the stem array by index up to the reported
count, trusting it. A non-positive reported count yields an empty result
(the Rust loop range 0..num_stems is empty), but there is no defensive
guard: a positive count exceeding the actual array length makes the code
read past the array. -/
theorem process_trusts_reported_count (r : NativeSeparationResult) :
    (r.num_stems ≤ 0 →
      SourceSeparation.process (some r) = ProcessOutcome.ok { stems := [] }) ∧
    (r.stems.length < r.num_stems.toNat →
      SourceSeparation.process (some r) = ProcessOutcome.undefinedRead) := by
  constructor
  · intro h
    have h0 : r.num_stems.toNat = 0 := Int.toNat_eq_zero.mpr h
    simp [SourceSeparation.process, readStems, h0, readAll]
  · intro h
    have hc : ¬ r.num_stems.toNat ≤ r.stems.length := by omega
    simp [SourceSeparation.process, readStems, hc]

/-- C5 amended, witness: a reported count of -3 over an empty array gives the
empty result; a reported count of 2 over an empty array is an out-of-bounds
read. -/
theorem process_trusts_reported_count_witness :
    SourceSeparation.process (some { num_stems := -3, stems := [] }) =
      ProcessOutcome.ok { stems := [] } ∧
    SourceSeparation.process (some { num_stems := 2, stems := [] }) =
      ProcessOutcome.undefinedRead :=
  ⟨(process_trusts_reported_count { num_stems := -3, stems := [] }).1 (by decide),
   (process_trusts_reported_count { num_stems := 2, stems := [] }).2 (by decide)⟩

/-- C6: for a successfully constructed handle whose native state is m,
get_num_stems is positive (it is a pure accessor of m, so repeated calls
agree by construction), and every successful process call — that is, every
call whose native result is one the spec-modelled library can return for m —
yields exactly get_num_stems stems. -/
theorem get_num_stems_positive_and_matches_process
    (m : NativeSeparationModel) (r : NativeSeparationResult)
    (h : NativeResultMatchesModel m r) :
    0 < SourceSeparation.get_num_stems m ∧
    ∃ stems, SourceSeparation.process (some r) = ProcessOutcome.ok { stems := stems } ∧
      (stems.length : Int) = SourceSeparation.get_num_stems m := by
  obtain ⟨h1, h2, h3⟩ := h
  refine ⟨m.num_stems_pos, ?_⟩
  have hall : ∀ s ∈ r.stems, (readStem s).isSome = true := by
    intro s hs
    exact List.all_eq_true.mp h3 s hs
  obtain ⟨out, hout⟩ := readAll_isSome_of_forall r.stems hall
  have hlen := readAll_length r.stems out hout
  have hcount : r.num_stems.toNat ≤ r.stems.length := le_of_eq h2.symm
  have htake : r.stems.take r.num_stems.toNat = r.stems := by
    rw [← h2]
    exact List.take_length r.stems
  refine ⟨out, ?_, ?_⟩
  · simp [SourceSeparation.process, readStems, hcount, htake, hout]
  · rw [hlen, h2, h1]
    have : (0 : Int) ≤ m.num_stems := le_of_lt m.num_stems_pos
    simp [SourceSeparation.get_num_stems,
      SherpaOnnxOfflineSourceSeparationGetNumStems, Int.toNat_of_nonneg this]

/-- Spec-model state of a two-stem (Spleeter) handle, used as the witness
input. -/
def twoStemModel : NativeSeparationModel :=
  { num_stems := 2, sample_rate := 44100, num_stems_pos := by decide }

/-- A well-formed two-stem native process result, used as the witness
input. -/
def twoStemResult : NativeSeparationResult :=
  { num_stems := 2
    stems := [{ samples := some [], nStem := 0, sample_rate := 44100, num_channels := 2 },
              { samples := some [], nStem := 0, sample_rate := 44100, num_channels := 2 }] }

/-- C6 witness: the two-stem model instance. -/
theorem get_num_stems_positive_and_matches_process_witness :
    0 < SourceSeparation.get_num_stems twoStemModel ∧
    ∃ stems, SourceSeparation.process (some twoStemResult) =
        ProcessOutcome.ok { stems := stems } ∧
      (stems.length : Int) = SourceSeparation.get_num_stems twoStemModel :=
  get_num_stems_positive_and_matches_process twoStemModel twoStemResult
    (by constructor
        · decide
        · constructor
          · decide
          · decide)

/-- A ZipVoice configuration with every path empty and default settings,
used as a concrete construction input. -/
def emptyZipVoiceConfig : ZipVoiceTtsConfig :=
  { tokens := "", encoder := "", decoder := "", vocoder := ""
    data_dir := "", lexicon := ""
    feat_scale := { bits := 0 }, t_shift := { bits := 0 }
    target_rms := { bits := 0 }, guidance_scale := { bits := 0 }
    onnx_config := { provider := "cpu", num_threads := 1, debug := false }
    common_config := { max_num_sentences := 1, silence_scale := { bits := 0 }
                       rule_fsts := none, rule_fars := none } }

/-- C2 counterexample: when the native creation returns a null handle,
ZipVoiceTts::new does not report any error — its return type has no error
case — and instead hands back a handle object that wraps the null pointer,
which a later create call or the Drop destructor will pass to the native
library. -/
theorem new_wraps_null_handle :
    ZipVoiceTts.new emptyZipVoiceConfig (fun _ => none) = { tts := none } := by
  rfl

/-- C2 amended: ZipVoiceTts::new stores whatever handle the native creation
function returns for the marshalled configuration — null included — without
any check, and it has no failure mode at all. -/
theorem new_stores_native_result_unconditionally (cfg : ZipVoiceTtsConfig)
    (createOfflineTts : SherpaOnnxOfflineTtsConfig → Option TtsHandle) :
    (ZipVoiceTts.new cfg createOfflineTts).tts =
      createOfflineTts (ZipVoiceTts.marshal cfg) := by
  rfl

/-- C3 counterexample: a native generation result with sample count zero and
a null sample buffer. The claim says this case succeeds; the code checks the
buffer pointer unconditionally (not only for positive counts) and reports
the generation failure. -/
theorem create_fails_on_null_samples_with_zero_count :
    ZipVoiceTts.create (some { samples := none, n := 0, sample_rate := 44100 }) =
      CreateOutcome.error "audio samples are null" := by
  decide

/-- C3 amended: create reports a generation failure exactly when the native
result pointer is null, the reported sample count is negative, or the sample
buffer pointer is null — the latter regardless of the sample count. (In the
remaining cases the call is not a generation failure: it succeeds, or panics
on a zero sample rate, or reads out of bounds if the buffer is shorter than
the reported count.) -/
theorem create_failure_characterization :
    (ZipVoiceTts.create none).isFailure = true ∧
    ∀ aud : GeneratedAudio,
      (ZipVoiceTts.create (some aud)).isFailure = true ↔
        (aud.n < 0 ∨ aud.samples = none) := by
  refine ⟨rfl, ?_⟩
  intro aud
  by_cases hn : aud.n < 0
  · simp [ZipVoiceTts.create, ZipVoiceTts.createRun, hn, CreateOutcome.isFailure]
  · cases hs : aud.samples with
    | none =>
      simp [ZipVoiceTts.create, ZipVoiceTts.createRun, hn, hs,
        CreateOutcome.isFailure]
    | some buf =>
      by_cases hlen : buf.length < aud.n.toNat
      · simp [ZipVoiceTts.create, ZipVoiceTts.createRun, hn, hs, hlen,
          CreateOutcome.isFailure]
      · by_cases hr : aud.sample_rate = 0 <;>
          simp [ZipVoiceTts.create, ZipVoiceTts.createRun, hn, hs, hlen, hr,
            CreateOutcome.isFailure]

/-- C7: a native generation result that passes every validation check in
create (non-null pointer, non-negative count, non-null readable buffer) but
reports a sample rate of zero drives the duration computation into an i32
division by zero, which panics in Rust; create is total only under the
unstated precondition that the reported sample rate is nonzero. -/
theorem create_panics_on_zero_sample_rate (aud : GeneratedAudio)
    (buf : List F32) (hbuf : aud.samples = some buf) (hn : 0 ≤ aud.n)
    (hlen : aud.n.toNat ≤ buf.length) (hrate : aud.sample_rate = 0) :
    ZipVoiceTts.create (some aud) = CreateOutcome.divByZero := by
  have hn' : ¬ aud.n < 0 := by omega
  have hlen' : ¬ buf.length < aud.n.toNat := by omega
  simp [ZipVoiceTts.create, ZipVoiceTts.createRun, hbuf, hn', hlen', hrate]

/-- C7 witness: an all-checks-passing result with rate zero. -/
theorem create_panics_on_zero_sample_rate_witness :
    ZipVoiceTts.create (some { samples := some [], n := 0, sample_rate := 0 }) =
      CreateOutcome.divByZero :=
  create_panics_on_zero_sample_rate
    { samples := some [], n := 0, sample_rate := 0 } [] rfl (by decide)
    (by decide) rfl

/-- Five opaque f32 samples, the buffer of the C4 counterexample. -/
def fiveZeroSamples : List F32 :=
  [{ bits := 0 }, { bits := 0 }, { bits := 0 }, { bits := 0 }, { bits := 0 }]

/-- C4 counterexample: a native result with five samples and a reported
sample rate of -2 passes every validation check, and create succeeds with
duration -2 (Rust i32 division truncates toward zero), while floor division
of the buffer length by that rate gives -3. So the duration field is not
the floor of length over rate for every sample rate the native library may
report. -/
theorem duration_not_floor_on_negative_rate :
    ZipVoiceTts.create
        (some { samples := some fiveZeroSamples, n := 5, sample_rate := -2 }) =
      CreateOutcome.ok
        { samples := fiveZeroSamples, sample_rate := 4294967294, duration := -2 } ∧
    Int.fdiv (5 : Int) (-2 : Int) ≠ (-2 : Int) := by
  refine ⟨by decide, by decide⟩

/-- C4 amended: for every successful generate call whose reported sample
rate is positive (and in i32 range), the duration field equals the returned
sample buffer length divided by the returned sample rate under floor
division — for positive operands Rust's truncating division and floor
division agree. For a zero rate the call panics instead of succeeding, and
for a negative rate the code truncates toward zero, which differs from
floor. -/
theorem duration_is_floor_for_positive_rate (aud : GeneratedAudio)
    (buf : List F32) (hbuf : aud.samples = some buf) (hn : 0 ≤ aud.n)
    (hlen : aud.n.toNat ≤ buf.length) (hrpos : 0 < aud.sample_rate)
    (hrbound : aud.sample_rate < 2147483648) :
    ZipVoiceTts.create (some aud) =
      CreateOutcome.ok
        { samples := buf.take aud.n.toNat
          sample_rate := i32ToU32 aud.sample_rate
          duration :=
            Int.fdiv ((buf.take aud.n.toNat).length : Int) aud.sample_rate } ∧
    ((i32ToU32 aud.sample_rate : Nat) : Int) = aud.sample_rate := by
  have hn' : ¬ aud.n < 0 := by omega
  have hlen' : ¬ buf.length < aud.n.toNat := by omega
  have hr0 : ¬ aud.sample_rate = 0 := by omega
  constructor
  · simp only [ZipVoiceTts.create, ZipVoiceTts.createRun, hbuf, if_neg hn',
      if_neg hlen', if_neg hr0]
    have hnum : (0 : Int) ≤ ((buf.take aud.n.toNat).length : Int) :=
      Int.natCast_nonneg _
    rw [Int.fdiv_eq_tdiv hnum (le_of_lt hrpos)]
  · simp only [i32ToU32]
    omega

/-- Three opaque f32 samples, the buffer of the C4 witness. -/
def threeZeroSamples : List F32 := [{ bits := 0 }, { bits := 0 }, { bits := 0 }]

/-- The C4 witness native result: three samples at rate 2. -/
def posRateResult : GeneratedAudio :=
  { samples := some threeZeroSamples, n := 3, sample_rate := 2 }

/-- The audio create returns on posRateResult: duration 1 = floor of 3/2. -/
def posRateOut : TtsAudio :=
  { samples := threeZeroSamples, sample_rate := 2, duration := 1 }

/-- C4 amended, witness: three samples at rate 2 give duration 1, the floor
of 3/2. -/
theorem duration_is_floor_for_positive_rate_witness :
    ZipVoiceTts.create (some posRateResult) = CreateOutcome.ok posRateOut ∧
    ((i32ToU32 posRateResult.sample_rate : Nat) : Int) =
      posRateResult.sample_rate :=
  duration_is_floor_for_positive_rate posRateResult threeZeroSamples rfl
    (by decide) (by decide) (by decide) (by decide)

/-- C1 (resource release): evaluating the instrumented create on each path.
On the success path the native audio result is destroyed exactly once, but
on both error paths that fire after a non-null result pointer was obtained
(negative sample count; null sample buffer) the code bails without ever
calling SherpaOnnxDestroyOfflineTtsGeneratedAudio: the destroy count is 0
and the native buffer leaks, contradicting the release-exactly-once
invariant. -/
theorem generate_error_paths_skip_destroy :
    ZipVoiceTts.createRun
        (some { samples := some [], n := -1, sample_rate := 22050 }) =
      (CreateOutcome.error "no samples found", 0) ∧
    ZipVoiceTts.createRun
        (some { samples := none, n := 1, sample_rate := 22050 }) =
      (CreateOutcome.error "audio samples are null", 0) ∧
    ZipVoiceTts.createRun
        (some { samples := some [], n := 0, sample_rate := 22050 }) =
      (CreateOutcome.ok { samples := [], sample_rate := 22050, duration := 0 }, 1) := by
  refine ⟨by decide, by decide, by decide⟩
